import Mathlib

/-
  Verification development for the roastume repository's job-lifecycle
  managers.  The repository contains several near-identical manager
  implementations (Go configuration manager, JS api manager, Java
  monitoring and configuration managers, C++ configuration manager) plus
  a TypeScript polling client.  Each manager is embedded below as a pure
  state-passing function; clock-valued fields (createdAt, processedAt,
  processing durations) are omitted, since no property examined here
  depends on them, and logging is side-effect-only and dropped.
-/

namespace Roastume

instance {ε α : Type} [DecidableEq ε] [DecidableEq α] : DecidableEq (Except ε α) :=
  fun a b =>
    match a, b with
    | .ok x, .ok y =>
      if h : x = y then isTrue (by rw [h]) else isFalse (fun hh => h (Except.ok.inj hh))
    | .error x, .error y =>
      if h : x = y then isTrue (by rw [h]) else isFalse (fun hh => h (Except.error.inj hh))
    | .ok _, .error _ => isFalse (fun h => Except.noConfusion h)
    | .error _, .ok _ => isFalse (fun h => Except.noConfusion h)

/-- Status values shared by every manager in the repository
    (Go `Status`, JS `API_STATUS`, Java/C++ `Status` enums,
    TS `ReviewStatus`). -/
inductive Status : Type
  | pending
  | processing
  | completed
  | failed
deriving DecidableEq

/-! ## Go configuration manager, src/src/configuration_manager_54.go -/

/-- Embedding of Go `Config` (`configuration_manager_54.go` lines 49-54).
    `timeout` is a `time.Duration`, i.e. a count of nanoseconds. -/
structure GoConfig : Type where
  enabled : Bool
  timeout : Int
  retries : Int
  logLevel : String
deriving DecidableEq

/-- Go `time.Second` expressed in nanoseconds. -/
def goSecond : Int := 1000000000

/-- Embedding of `DefaultConfig` (lines 57-64): enabled, 30s timeout,
    3 retries, log level INFO. -/
def DefaultConfig : GoConfig :=
  { enabled := true, timeout := 30 * goSecond, retries := 3, logLevel := "INFO" }

/-- The mutable state of a Go `Manager` (lines 76-82), without the
    clock field `createdAt` and the logger. -/
structure GoManager : Type where
  config : GoConfig
  status : Status
deriving DecidableEq

/-- Embedding of `NewManager` (lines 95-109): a nil config argument is
    replaced by `DefaultConfig()`, and the manager starts `Pending`. -/
def NewManager (config : Option GoConfig) : GoManager :=
  { config := config.getD DefaultConfig, status := .pending }

/-- Embedding of the Go `Result` struct (lines 67-73) minus the two
    clock-valued fields `ProcessedAt` and `ProcessingTime`. -/
structure GoResult : Type where
  status : String
  dataSize : Nat
  message : String
deriving DecidableEq

/-- Go `data interface\x7b\x7d` arguments are modelled as `Option String`:
    `none` is the nil interface value, `some s` any other value rendered
    by `fmt.Sprintf` as `s`. -/
def goSprintf : Option String → String
  | none => "<nil>"
  | some s => s

/-- Embedding of `Manager.Validate` (lines 174-182): nil data is the only
    rejected input. -/
def goValidate (data : Option String) : Except String Unit :=
  match data with
  | none => .error "data cannot be nil"
  | some _ => .ok ()

/-- Embedding of `Manager.executeProcessing` (lines 185-204).  The Go
    body selects between a 100ms sleep and `ctx.Done()`; the parameter
    `ctxErr` is `some e` when the caller's context fires first with
    `ctx.Err() = e`, and `none` when the sleep wins. -/
def goExecuteProcessing (ctxErr : Option String) (data : Option String) :
    Except String GoResult :=
  match ctxErr with
  | some e => .error e
  | none =>
    .ok { status := "success", dataSize := (goSprintf data).length,
          message := "Configuration processing completed successfully" }

/-- Observable outcome of one call to a manager's process method:
    the manager state on return, the ordered list of assignments made to
    the status field during the call, the returned value or error, and
    how many times the worker (executeProcessing) was invoked. -/
structure ProcOut (μ ρ : Type) : Type where
  final : μ
  writes : List Status
  outcome : Except String ρ
  workerCalls : Nat

instance {μ ρ : Type} [DecidableEq μ] [DecidableEq ρ] : DecidableEq (ProcOut μ ρ) := by
  intro a b
  cases a
  cases b
  exact decidable_of_iff _ (iff_of_eq (ProcOut.mk.injEq _ _ _ _ _ _ _ _).symm)

/-- Embedding of `Manager.Process` (lines 117-146).  The method first
    writes `StatusProcessing` (line 124), then on validation failure
    writes `StatusFailed` and returns the wrapped error (lines 127-131);
    otherwise it runs `executeProcessing`, writing `StatusFailed` and
    wrapping on error (lines 134-139) and `StatusCompleted` on success
    (line 142). -/
def goProcess (m : GoManager) (ctxErr : Option String) (data : Option String) :
    ProcOut GoManager GoResult :=
  match goValidate data with
  | .error e =>
    { final := { m with status := .failed }, writes := [.processing, .failed],
      outcome := .error ("validation failed: " ++ e), workerCalls := 0 }
  | .ok _ =>
    match goExecuteProcessing ctxErr data with
    | .error e =>
      { final := { m with status := .failed }, writes := [.processing, .failed],
        outcome := .error ("processing failed: " ++ e), workerCalls := 1 }
    | .ok r =>
      { final := { m with status := .completed }, writes := [.processing, .completed],
        outcome := .ok r, workerCalls := 1 }

/-- Embedding of `Manager.Reset` (lines 214-220): unconditionally writes
    `StatusPending` and returns nothing. -/
def goReset (m : GoManager) : GoManager :=
  { m with status := .pending }

/-- Embedding of the value delivered on the channel returned by
    `Manager.ProcessAsync` (lines 149-171): the goroutine calls
    `Process`; on error it substitutes a `Result` with status "error"
    and the error's message, then sends the result. -/
def goProcessAsyncValue (m : GoManager) (ctxErr : Option String)
    (data : Option String) : GoResult :=
  match (goProcess m ctxErr data).outcome with
  | .ok r => r
  | .error e => { status := "error", dataSize := 0, message := e }

/-! ## JS api manager, src/src/api_manager_188.js -/

/-- Embedding of the JS config object defaulted in the `ApiManager`
    constructor (lines 33-39): enabled, 30000ms timeout, 3 retries,
    log level "info". -/
structure JsConfig : Type where
  enabled : Bool
  timeout : Nat
  retries : Nat
  logLevel : String
deriving DecidableEq

def jsDefaultConfig : JsConfig :=
  { enabled := true, timeout := 30000, retries := 3, logLevel := "info" }

/-- State of a JS `ApiManager` (constructor lines 32-43), minus the
    logger. -/
structure ApiManager : Type where
  config : JsConfig
  status : Status
deriving DecidableEq

/-- Embedding of `ApiManager.validate` (lines 95-103): data is invalid
    exactly when it is null or undefined, both modelled as `none`. -/
def jsValidate (data : Option String) : Bool :=
  match data with
  | none => false
  | some _ => true

/-- Embedding of the result object resolved by
    `ApiManager.executeProcessing` (lines 110-122), minus the clock
    field `processedAt`. -/
structure JsResult : Type where
  status : String
  dataSize : Nat
  processingTime : Nat
deriving DecidableEq

/-- JSON.stringify of a JS string value: the value wrapped in quotes
    (exact for strings containing no character that JSON escapes, which
    covers every concrete input used below). -/
def jsJSONStringify (s : String) : String :=
  "\"" ++ s ++ "\""

/-- Embedding of `ApiManager.executeProcessing` (lines 110-122): always
    resolves with a success record. -/
def jsExecuteProcessing (data : String) : JsResult :=
  { status := "success", dataSize := (jsJSONStringify data).length,
    processingTime := 100 }

/-- Embedding of `ApiManager.process` (lines 67-88).  The method writes
    `PROCESSING` (line 70); on `validate` failure (exactly the `none`
    case, see `jsValidate`) it throws Error with message
    "Data validation failed" and the catch block writes `FAILED` and
    rethrows (lines 83-87); otherwise it awaits `executeProcessing` and
    writes `COMPLETED` (line 78). -/
def jsProcess (m : ApiManager) (data : Option String) :
    ProcOut ApiManager JsResult :=
  match data with
  | none =>
    { final := { m with status := .failed }, writes := [.processing, .failed],
      outcome := .error "Data validation failed", workerCalls := 0 }
  | some s =>
    { final := { m with status := .completed }, writes := [.processing, .completed],
      outcome := .ok (jsExecuteProcessing s), workerCalls := 1 }

/-- Embedding of `ApiManager.reset` (lines 135-138): unconditionally
    writes `PENDING`. -/
def jsReset (m : ApiManager) : ApiManager :=
  { m with status := .pending }

/-! ## Java monitoring manager, src/unnamed/part_003 -/

/-- Embedding of the Java `MonitoringManager.Config` defaults
    (part_003 lines 37-55): enabled, timeout 30, retries 3, INFO. -/
structure MMConfig : Type where
  enabled : Bool
  timeout : Int
  retries : Int
  logLevel : String
deriving DecidableEq

def mmDefaultConfig : MMConfig :=
  { enabled := true, timeout := 30, retries := 3, logLevel := "INFO" }

/-- State of a Java `MonitoringManager` (part_003 lines 57-59), minus
    the clock field `createdAt`. -/
structure MonitoringManager : Type where
  config : MMConfig
  status : Status
deriving DecidableEq

/-- Embedding of the Java `MonitoringManager` constructor (part_003
    lines 66-71): a null config is replaced by `new Config()` and the
    manager starts `PENDING`. -/
def mmNew (config : Option MMConfig) : MonitoringManager :=
  { config := config.getD mmDefaultConfig, status := .pending }

/-- Embedding of `MonitoringManager.validate` (part_003 lines 136-144):
    only null data is invalid. -/
def mmValidate (data : Option String) : Bool :=
  match data with
  | none => false
  | some _ => true

/-- Embedding of the result map built by
    `MonitoringManager.executeProcessing` (part_003 lines 152-160),
    minus the clock entry `processedAt`. -/
structure MMResult : Type where
  status : String
  dataSize : Nat
  processingTime : Int
deriving DecidableEq

def mmExecuteProcessing (data : String) : MMResult :=
  { status := "success", dataSize := data.length, processingTime := 100 }

/-- Embedding of `MonitoringManager.process` (part_003 lines 97-118).
    The method writes `PROCESSING` (line 100); invalid data (exactly the
    `none` case, see `mmValidate`) raises
    IllegalArgumentException("Data validation failed") which the catch
    block turns into `FAILED` plus a RuntimeException prefixed
    "Processing failed: " (lines 113-117); otherwise `executeProcessing`
    runs and `COMPLETED` is written (line 108). -/
def mmProcess (m : MonitoringManager) (data : Option String) :
    ProcOut MonitoringManager MMResult :=
  match data with
  | none =>
    { final := { m with status := .failed }, writes := [.processing, .failed],
      outcome := .error "Processing failed: Data validation failed",
      workerCalls := 0 }
  | some s =>
    { final := { m with status := .completed }, writes := [.processing, .completed],
      outcome := .ok (mmExecuteProcessing s), workerCalls := 1 }

/-- Embedding of `MonitoringManager.reset` (part_003 lines 174-177):
    unconditionally writes `PENDING`. -/
def mmReset (m : MonitoringManager) : MonitoringManager :=
  { m with status := .pending }

/-! ## Java configuration manager, src/unnamed/part_005 -/

/-- Embedding of the Java `ConfigurationManager.Config` defaults
    (part_005 lines 37-55). -/
structure CMConfig : Type where
  enabled : Bool
  timeout : Int
  retries : Int
  logLevel : String
deriving DecidableEq

def cmDefaultConfig : CMConfig :=
  { enabled := true, timeout := 30, retries := 3, logLevel := "INFO" }

/-- State of a Java `ConfigurationManager` (part_005 lines 57-59),
    minus the clock field `createdAt`. -/
structure ConfigurationManager : Type where
  config : CMConfig
  status : Status
deriving DecidableEq

/-- Embedding of the `ConfigurationManager` constructor (part_005 lines
    66-71): a null config is replaced by `new Config()` and the manager
    starts `PENDING`. -/
def cmNew (config : Option CMConfig) : ConfigurationManager :=
  { config := config.getD cmDefaultConfig, status := .pending }

/-- Embedding of `ConfigurationManager.reset` (part_005 lines 174-177):
    unconditionally writes `PENDING`. -/
def cmReset (m : ConfigurationManager) : ConfigurationManager :=
  { m with status := .pending }

/-! ## C++ configuration manager, src/unnamed/part_004 -/

/-- Embedding of the C++ `Config` defaults (part_004 lines 38-47). -/
structure CppConfig : Type where
  enabled : Bool
  timeout : Int
  retries : Int
  logLevel : String
deriving DecidableEq

def cppDefaultConfig : CppConfig :=
  { enabled := true, timeout := 30, retries := 3, logLevel := "INFO" }

/-- State of a C++ `ConfigurationManager` (part_004 lines 64-68), minus
    the clock field `createdAt_`. -/
structure CppManager : Type where
  config : CppConfig
  status : Status
deriving DecidableEq

/-- Embedding of the C++ result map built by `executeProcessing`
    (part_004 lines 81-90), minus the clock entry; the map's values are
    decimal strings, kept here as numerals. -/
structure CppResult : Type where
  status : String
  dataSize : Nat
  processingTime : Nat
deriving DecidableEq

/-- Embedding of the C++ `validate` (part_004 lines 194-204): only the
    empty string is invalid. -/
def cppValidate (data : String) : Bool :=
  !data.isEmpty

/-- Embedding of the C++ `process` (part_004 lines 152-176): writes
    `PROCESSING`; the empty string fails `validate`, raising
    invalid_argument("Data validation failed") which the catch block
    turns into `FAILED` and rethrows; otherwise `executeProcessing` runs
    and `COMPLETED` is written. -/
def cppProcess (m : CppManager) (data : String) : ProcOut CppManager CppResult :=
  match cppValidate data with
  | false =>
    { final := { m with status := .failed }, writes := [.processing, .failed],
      outcome := .error "Data validation failed", workerCalls := 0 }
  | true =>
    { final := { m with status := .completed }, writes := [.processing, .completed],
      outcome := .ok { status := "success", dataSize := data.length,
                       processingTime := 100 },
      workerCalls := 1 }

/-- Embedding of the C++ `processAsync` (part_004 lines 183-187): the
    returned future runs the lambda, which simply calls `process` on
    the same manager with the same data; the future resolves to that
    call's outcome (rethrowing its exception, if any). -/
def cppProcessAsync (m : CppManager) (data : String) :
    ProcOut CppManager CppResult :=
  cppProcess m data

/-- Embedding of the C++ `reset` (part_004 lines 217-221):
    unconditionally writes `PENDING`. -/
def cppReset (m : CppManager) : CppManager :=
  { m with status := .pending }

/-! ## TypeScript poll loop, src/unnamed/part_008 (ApiService.pollReview) -/

/-- The part of a `ReviewResponse` (part_008 type definitions) that the
    poll loop inspects. -/
structure ReviewResponse : Type where
  status : Status
deriving DecidableEq

/-- Embedding of the `while (attempts < maxAttempts)` loop of
    `ApiService.pollReview` (part_008 lines 78-114).  `resp i` is what
    the i-th `getReview` call produces: `.ok review` on HTTP success,
    `.error e` when it throws.  The loop counter `attempts` starts at 0
    and increases by one per iteration in both the success and the catch
    path; the structural fuel `rem` equals `maxAttempts - attempts`, so
    fuel 0 is exactly the loop exit `attempts >= maxAttempts`, after
    which line 113 throws "Review processing timeout".  A terminal
    status returns the review (line 93); a thrown error is rethrown only
    when `attempts >= maxAttempts - 1` (line 103), otherwise the loop
    sleeps and retries. -/
def pollAux (resp : Nat → Except String ReviewResponse) (maxAttempts : Nat) :
    Nat → Nat → Except String ReviewResponse
  | _, 0 => .error "Review processing timeout"
  | attempts, rem + 1 =>
    match resp attempts with
    | .ok review =>
      if review.status = .completed ∨ review.status = .failed then
        .ok review
      else
        pollAux resp maxAttempts (attempts + 1) rem
    | .error e =>
      if maxAttempts - 1 ≤ attempts then
        .error e
      else
        pollAux resp maxAttempts (attempts + 1) rem

/-- Embedding of `ApiService.pollReview` (part_008 lines 78-114),
    entered with `attempts = 0`. -/
def pollReview (resp : Nat → Except String ReviewResponse) (maxAttempts : Nat) :
    Except String ReviewResponse :=
  pollAux resp maxAttempts 0 maxAttempts

/-! ## Formalisations of spec-side notions used to state the claims -/

/-- The status transitions the spec allows a process run to make:
    `Pending → Processing` and `Processing → {Completed, Failed}`
    (spec section 4.4 state machine). -/
def claimedProcessStep : Status → Status → Bool
  | .pending, .processing => true
  | .processing, .completed => true
  | .processing, .failed => true
  | _, _ => false

/-- All adjacent pairs of `start :: writes` satisfy `step`. -/
def chainOK (step : Status → Status → Bool) : Status → List Status → Bool
  | _, [] => true
  | s, t :: rest => step s t && chainOK step t rest

/-- Decides whether the outcome of one element of the process-outcome
    sum is an error. -/
def isErrorOutcome {ρ : Type} : Except String ρ → Bool
  | .error _ => true
  | .ok _ => false

/-- Decides whether a `getReview` observation is a successful response
    whose status is still non-terminal (neither completed nor failed). -/
def isNonTerminalOk : Except String ReviewResponse → Bool
  | .ok r => decide (¬(r.status = .completed ∨ r.status = .failed))
  | .error _ => false

/-! ## Theorems -/

/-- C1, counterexample.  The claimed machine forbids any non-Reset move
    out of a terminal status and forbids Reset from `Processing`; the
    code violates both: `MonitoringManager.process` called on a manager
    whose status is `COMPLETED` immediately writes `PROCESSING`
    (part_003 line 100 has no status guard), and
    `MonitoringManager.reset` called while `PROCESSING` succeeds and
    writes `PENDING`. -/
theorem c1_counterexample :
    chainOK claimedProcessStep Status.completed
        (mmProcess { config := mmDefaultConfig, status := .completed } (some "x")).writes
      = false
    ∧ (mmReset { config := mmDefaultConfig, status := .processing }).status = .pending := by
  decide

/-- C1, amended.  process writes `Processing` and then a terminal
    status regardless of the starting status (the code has no Pending
    guard, so it also re-enters the pipeline from a terminal status);
    started from `Pending` the written chain does conform to the claimed
    machine; and reset writes `Pending` from every status, including
    `Processing`. -/
theorem c1_amended (m : MonitoringManager) (d : Option String) :
    (mmProcess m d).writes = [.processing, (mmProcess m d).final.status]
    ∧ ((mmProcess m d).final.status = .completed ∨ (mmProcess m d).final.status = .failed)
    ∧ chainOK claimedProcessStep Status.pending (mmProcess m d).writes = true
    ∧ (mmReset m).status = .pending := by
  cases d <;> simp [mmProcess, mmReset, chainOK, claimedProcessStep]

/-- C2, counterexample.  Submitting to a manager already `processing`
    does not produce an AlreadyRunning error and does schedule the work
    again: both `ApiManager.process` and the Go `Manager.Process` run
    the full pipeline (worker invoked once) and return the normal
    success outcome, because neither inspects the current status. -/
theorem c2_counterexample :
    ¬ (isErrorOutcome (jsProcess { config := jsDefaultConfig, status := .processing }
          (some "x")).outcome = true)
    ∧ (jsProcess { config := jsDefaultConfig, status := .processing } (some "x")).workerCalls = 1
    ∧ ¬ (isErrorOutcome (goProcess { config := DefaultConfig, status := .processing }
          none (some "x")).outcome = true)
    ∧ (goProcess { config := DefaultConfig, status := .processing } none (some "x")).workerCalls = 1 := by
  decide

/-- C2, amended.  process ignores the manager's current status
    entirely: a call on a manager already `Processing` behaves exactly
    as a call on a `Pending` manager (same writes, same outcome, same
    worker invocations, same final state); no AlreadyRunning error path
    exists in the code. -/
theorem c2_amended (cfg : JsConfig) (st : Status) (d : Option String)
    (gcfg : GoConfig) (gst : Status) (c gd : Option String) :
    jsProcess { config := cfg, status := st } d
        = jsProcess { config := cfg, status := .pending } d
    ∧ goProcess { config := gcfg, status := gst } c gd
        = goProcess { config := gcfg, status := .pending } c gd := by
  constructor
  · cases d <;> rfl
  · cases gd <;> cases c <;> rfl

/-- C3, counterexample.  For nil data the Go `Manager.Process` returns
    the error "validation failed: data cannot be nil" (the validator's
    message wrapped at line 130), not an error or stored reason equal to
    "validation failed"; no failureReason field exists on the manager. -/
theorem c3_counterexample :
    ¬ ((goProcess (NewManager none) none none).outcome = .error "validation failed")
    ∧ (goProcess (NewManager none) none none).outcome
        = .error "validation failed: data cannot be nil" := by
  decide

/-- C3, amended.  For every manager state and context, processing nil
    data writes `Processing` then `Failed`, returns the error
    "validation failed: data cannot be nil" (prefix "validation failed: "
    wrapping the validator's message), and never invokes the worker. -/
theorem c3_amended (m : GoManager) (ctxErr : Option String) :
    goProcess m ctxErr none =
      { final := { m with status := .failed }, writes := [.processing, .failed],
        outcome := .error "validation failed: data cannot be nil",
        workerCalls := 0 } := by
  rfl

/-- C4, counterexample.  When the caller's context expires before the
    100ms simulated work, the Go `Manager.Process` fails with
    "processing failed: context deadline exceeded" (the wrapped
    `ctx.Err()`), not with reason "timeout"; the string "timeout" never
    appears. -/
theorem c4_counterexample :
    ¬ ((goProcess (NewManager none) (some "context deadline exceeded")
          (some "resume.pdf")).outcome = .error "timeout")
    ∧ (goProcess (NewManager none) (some "context deadline exceeded")
          (some "resume.pdf")).outcome
        = .error "processing failed: context deadline exceeded" := by
  decide

/-- C4, amended.  When the context fires first (with error `e`), the
    job transitions to `Failed` and the call returns
    "processing failed: " ++ e; and the configured `config.timeout`
    field plays no role in the outcome (the deadline comes solely from
    the caller's context): replacing the timeout value never changes
    the outcome. -/
theorem c4_amended (m : GoManager) (e s : String) (t : Int) (c d : Option String) :
    goProcess m (some e) (some s) =
      { final := { m with status := .failed }, writes := [.processing, .failed],
        outcome := .error ("processing failed: " ++ e), workerCalls := 1 }
    ∧ (goProcess { m with config := { m.config with timeout := t } } c d).outcome
        = (goProcess m c d).outcome := by
  constructor
  · rfl
  · cases d <;> cases c <;> rfl

/-- C5, counterexample.  Reset called while the job is `Processing`
    neither fails nor leaves the job unchanged: both the Go
    `Manager.Reset` and the Java `ConfigurationManager.reset` write
    `Pending` unconditionally (no ConflictError exists in the code). -/
theorem c5_counterexample :
    ¬ (goReset { config := DefaultConfig, status := .processing }
        = { config := DefaultConfig, status := Status.processing })
    ∧ (goReset { config := DefaultConfig, status := .processing }).status = .pending
    ∧ (cmReset { config := cmDefaultConfig, status := .processing }).status = .pending := by
  decide

/-- C5, amended.  Reset returns the job to `Pending` from every status,
    including `Processing`, never fails, and is idempotent from every
    status. -/
theorem c5_amended (m : GoManager) (m2 : ConfigurationManager) :
    (goReset m).status = .pending ∧ goReset (goReset m) = goReset m
    ∧ (cmReset m2).status = .pending ∧ cmReset (cmReset m2) = cmReset m2 :=
  ⟨rfl, rfl, rfl, rfl⟩

/-- C6, confirmed.  For every manager state and every valid (non-nil)
    payload whose worker invocation succeeds (the context does not
    fire), the Go `Manager.Process` records the worker's result, ends
    with status `Completed`, and returns the result with no error. -/
theorem c6_run_completes (cfg : GoConfig) (st : Status) (s : String) :
    goProcess { config := cfg, status := st } none (some s) =
      { final := { config := cfg, status := .completed },
        writes := [.processing, .completed],
        outcome := .ok { status := "success", dataSize := s.length,
                         message := "Configuration processing completed successfully" },
        workerCalls := 1 } := by
  rfl

/-- C9, counterexample.  The channel returned by the Go
    `Manager.ProcessAsync` does not resolve to the same (result, error)
    outcome as the synchronous `Process`: for nil data `Process` returns
    an error and no result, while the channel resolves with a substitute
    `Result` carrying status "error" and the error message. -/
theorem c9_counterexample :
    ¬ (Except.ok (goProcessAsyncValue (NewManager none) none none)
        = (goProcess (NewManager none) none none).outcome)
    ∧ goProcessAsyncValue (NewManager none) none none
        = { status := "error", dataSize := 0,
            message := "validation failed: data cannot be nil" } := by
  decide

/-- C9, amended.  The Go async channel resolves with the synchronous
    result exactly when `Process` succeeds, and with a substitute
    `Result` with status "error" carrying the error's message when
    `Process` fails; the C++ `processAsync` future resolves to exactly
    the synchronous outcome of `process`. -/
theorem c9_amended (m : GoManager) (c d : Option String) (m2 : CppManager) (s : String) :
    (∀ r, (goProcess m c d).outcome = .ok r → goProcessAsyncValue m c d = r)
    ∧ (∀ e, (goProcess m c d).outcome = .error e →
        goProcessAsyncValue m c d
          = { status := "error", dataSize := 0, message := e })
    ∧ cppProcessAsync m2 s = cppProcess m2 s := by
  refine ⟨?_, ?_, rfl⟩ <;> intro x h <;> simp [goProcessAsyncValue, h]

/-- C9, witness for the amended theorem at concrete inputs: a valid
    payload resolves with the success result, a nil payload resolves
    with the substitute error result. -/
theorem c9_witness :
    goProcessAsyncValue (NewManager none) none (some "resume.pdf")
      = { status := "success", dataSize := 10,
          message := "Configuration processing completed successfully" }
    ∧ goProcessAsyncValue (NewManager none) none none
      = { status := "error", dataSize := 0,
          message := "validation failed: data cannot be nil" } :=
  ⟨(c9_amended (NewManager none) none (some "resume.pdf") { config := cppDefaultConfig, status := .pending } "x").1 _ rfl,
   (c9_amended (NewManager none) none none { config := cppDefaultConfig, status := .pending } "x").2.1 _ rfl⟩

/-- C10, confirmed.  Constructing a manager with a nil configuration
    substitutes the default configuration: in Go enabled, a 30-second
    timeout, 3 retries, log level INFO, with the manager starting
    `Pending`; the Java configuration manager behaves the same with its
    default Config (timeout field 30). -/
theorem c10_default_config :
    NewManager none
      = { config := { enabled := true, timeout := 30 * goSecond,
                      retries := 3, logLevel := "INFO" },
          status := .pending }
    ∧ cmNew none
      = { config := { enabled := true, timeout := 30, retries := 3,
                      logLevel := "INFO" },
          status := .pending } :=
  ⟨rfl, rfl⟩

/-- If every observation from `attempts` for the next `rem` attempts is
    a non-terminal success, the loop exhausts its fuel and throws the
    timeout error. -/
theorem pollAux_timeout (resp : Nat → Except String ReviewResponse) (maxA : Nat) :
    ∀ rem attempts,
      (∀ i, attempts ≤ i → i < attempts + rem → isNonTerminalOk (resp i) = true) →
      pollAux resp maxA attempts rem = .error "Review processing timeout" := by
  intro rem
  induction rem with
  | zero => intro attempts _; rfl
  | succ n ih =>
    intro attempts h
    have h0 := h attempts (le_refl _) (by omega)
    cases hr : resp attempts with
    | error e => rw [hr] at h0; simp [isNonTerminalOk] at h0
    | ok r =>
      rw [hr] at h0
      have hnt : ¬(r.status = .completed ∨ r.status = .failed) := by
        simpa [isNonTerminalOk] using h0
      simp only [pollAux, hr, if_neg hnt]
      exact ih (attempts + 1) (fun i h1 h2 => h i (by omega) (by omega))

/-- If the observation at index `k` is a terminal success and every
    earlier observation from `attempts` on is a non-terminal success,
    the loop returns that review. -/
theorem pollAux_terminal (resp : Nat → Except String ReviewResponse) (maxA : Nat) :
    ∀ rem attempts k r, attempts ≤ k → k < attempts + rem →
      resp k = .ok r → (r.status = .completed ∨ r.status = .failed) →
      (∀ i, attempts ≤ i → i < k → isNonTerminalOk (resp i) = true) →
      pollAux resp maxA attempts rem = .ok r := by
  intro rem
  induction rem with
  | zero => intro attempts k r h1 h2 _ _ _; omega
  | succ n ih =>
    intro attempts k r h1 h2 hk ht h
    rcases Nat.eq_or_lt_of_le h1 with heq | hlt
    · subst heq
      simp only [pollAux, hk, if_pos ht]
    · have h0 := h attempts (le_refl _) hlt
      cases hr : resp attempts with
      | error e => rw [hr] at h0; simp [isNonTerminalOk] at h0
      | ok q =>
        rw [hr] at h0
        have hnt : ¬(q.status = .completed ∨ q.status = .failed) := by
          simpa [isNonTerminalOk] using h0
        simp only [pollAux, hr, if_neg hnt]
        exact ih (attempts + 1) k r (by omega) (by omega) hk ht
          (fun i hi1 hi2 => h i (by omega) hi2)

/-- If the observation at index `k < maxA` is a terminal success and
    every earlier observation from `attempts` on is a thrown error, the
    loop swallows the errors and returns that review. -/
theorem pollAux_errors_then_terminal (resp : Nat → Except String ReviewResponse)
    (maxA : Nat) :
    ∀ rem attempts k r, attempts ≤ k → k < attempts + rem → k < maxA →
      resp k = .ok r → (r.status = .completed ∨ r.status = .failed) →
      (∀ i, attempts ≤ i → i < k → isErrorOutcome (resp i) = true) →
      pollAux resp maxA attempts rem = .ok r := by
  intro rem
  induction rem with
  | zero => intro attempts k r h1 h2 _ _ _ _; omega
  | succ n ih =>
    intro attempts k r h1 h2 h3 hk ht h
    rcases Nat.eq_or_lt_of_le h1 with heq | hlt
    · subst heq
      simp only [pollAux, hk, if_pos ht]
    · have h0 := h attempts (le_refl _) hlt
      cases hr : resp attempts with
      | ok q => rw [hr] at h0; simp [isErrorOutcome] at h0
      | error e =>
        have hcond : ¬(maxA - 1 ≤ attempts) := by omega
        simp only [pollAux, hr, if_neg hcond]
        exact ih (attempts + 1) k r (by omega) (by omega) h3 hk ht
          (fun i hi1 hi2 => h i (by omega) hi2)

/-- If every observation from `attempts` to the end errors, the loop
    retries through all of them and rethrows the error of the final
    attempt, index `maxA - 1`. -/
theorem pollAux_all_errors (resp : Nat → Except String ReviewResponse)
    (maxA : Nat) (es : Nat → String) :
    ∀ rem attempts, attempts + rem = maxA → 0 < rem →
      (∀ i, attempts ≤ i → i < maxA → resp i = .error (es i)) →
      pollAux resp maxA attempts rem = .error (es (maxA - 1)) := by
  intro rem
  induction rem with
  | zero => intro attempts _ h2 _; omega
  | succ n ih =>
    intro attempts hsum _ h
    have hr := h attempts (le_refl _) (by omega)
    by_cases hcond : maxA - 1 ≤ attempts
    · have heq : attempts = maxA - 1 := by omega
      simp only [pollAux, hr, if_pos hcond]
      rw [heq]
    · simp only [pollAux, hr, if_neg hcond]
      exact ih (attempts + 1) (by omega) (by omega)
        (fun i hi1 hi2 => h i (by omega) hi2)

/-- C7, confirmed.  The poll loop returns the timeout error after
    `maxAttempts` consecutive non-terminal observations, and returns the
    review as soon as a terminal (`completed` or `failed`) status is
    observed, leaving later observations unread; the loop only issues
    reads (`getReview`), so it mutates no server-side state. -/
theorem c7_poll (resp : Nat → Except String ReviewResponse) (maxA : Nat) :
    ((∀ i, i < maxA → isNonTerminalOk (resp i) = true) →
        pollReview resp maxA = .error "Review processing timeout")
    ∧ (∀ k r, k < maxA → resp k = .ok r →
        (r.status = .completed ∨ r.status = .failed) →
        (∀ i, i < k → isNonTerminalOk (resp i) = true) →
        pollReview resp maxA = .ok r) := by
  constructor
  · intro h
    exact pollAux_timeout resp maxA maxA 0 (fun i h1 h2 => h i (by omega))
  · intro k r hk hok ht h
    exact pollAux_terminal resp maxA maxA 0 k r (by omega) (by omega) hok ht
      (fun i _ hi => h i hi)

/-- C7, witness: three pending observations with maxAttempts 3 produce
    the timeout error, and a terminal observation on the second attempt
    is returned immediately. -/
theorem c7_witness :
    pollReview (fun _ => .ok { status := .pending }) 3
      = .error "Review processing timeout"
    ∧ pollReview
        (fun i => if i = 0 then .ok { status := .pending }
                  else .ok { status := .completed }) 3
      = .ok { status := .completed } :=
  ⟨(c7_poll (fun _ => .ok { status := .pending }) 3).1 (by decide),
   (c7_poll (fun i => if i = 0 then .ok { status := .pending }
       else .ok { status := .completed }) 3).2 1 { status := .completed }
     (by decide) rfl (Or.inl rfl) (by decide)⟩

/-- C8, counterexample.  A `getReview` failure observed mid-poll is not
    surfaced: with the first attempt throwing "Not Found" and the second
    returning a completed review, `pollReview` swallows the error,
    keeps polling, and returns the review. -/
theorem c8_counterexample :
    ¬ (pollReview
        (fun i => if i = 0 then .error "Not Found"
                  else .ok { status := .completed }) 3
      = .error "Not Found")
    ∧ pollReview
        (fun i => if i = 0 then .error "Not Found"
                  else .ok { status := .completed }) 3
      = .ok { status := .completed } := by
  decide

/-- C8, amended.  Get errors observed before the final attempt are
    swallowed: the loop sleeps and retries exactly as for a non-terminal
    status, so a later terminal review is still returned; only an error
    observed on the final attempt (index `maxAttempts - 1`) is rethrown
    to the caller. -/
theorem c8_amended (resp : Nat → Except String ReviewResponse) (maxA : Nat)
    (es : Nat → String) :
    (∀ k r, k < maxA → resp k = .ok r →
        (r.status = .completed ∨ r.status = .failed) →
        (∀ i, i < k → isErrorOutcome (resp i) = true) →
        pollReview resp maxA = .ok r)
    ∧ (0 < maxA → (∀ i, i < maxA → resp i = .error (es i)) →
        pollReview resp maxA = .error (es (maxA - 1))) := by
  constructor
  · intro k r hk hok ht h
    exact pollAux_errors_then_terminal resp maxA maxA 0 k r (by omega) (by omega)
      hk hok ht (fun i _ hi => h i hi)
  · intro hpos h
    exact pollAux_all_errors resp maxA es maxA 0 (by omega) hpos
      (fun i _ hi => h i hi)

/-- C8, witness: an error on the first of three attempts is skipped and
    the completed review from the second attempt is returned; when every
    attempt errors, the error of the last attempt is rethrown. -/
theorem c8_witness :
    pollReview
        (fun i => if i = 0 then .error "Not Found"
                  else .ok { status := .completed }) 3
      = .ok { status := .completed }
    ∧ pollReview (fun _ => .error "Not Found") 2 = .error "Not Found" :=
  ⟨(c8_amended (fun i => if i = 0 then .error "Not Found"
       else .ok { status := .completed }) 3 (fun _ => "")).1 1
     { status := .completed } (by decide) rfl (Or.inl rfl) (by decide),
   (c8_amended (fun _ => .error "Not Found") 2 (fun _ => "Not Found")).2
     (by decide) (fun _ _ => rfl)⟩

end Roastume
